import Mathlib

/-!
Verification of the prediction and simulation engine of a digital-twin
backend for a photovoltaic installation.  The Python services are shallowly
embedded over `ℚ`: Python floats become rationals, `round(x, 2)` becomes
exact round-half-to-even on hundredths, timestamps become integers (minutes)
since only order comparisons and differences are performed on them, and
external collaborators (weather source, point-prediction models, system
configuration) become explicit parameters.
-/

namespace SolarTwin

/-- Round-half-to-even of a rational to an integer, the semantics of
the Python builtin `round` at exact rational inputs. -/
def roundHalfEven (q : ℚ) : ℤ :=
  if q - ⌊q⌋ < 1/2 then ⌊q⌋
  else if 1/2 < q - ⌊q⌋ then ⌊q⌋ + 1
  else if ⌊q⌋ % 2 = 0 then ⌊q⌋ else ⌊q⌋ + 1

/-- Semantics of the Python call `round(x, 2)`: round to two decimal places, half to even. -/
def round2 (q : ℚ) : ℚ := (roundHalfEven (q * 100) : ℚ) / 100

theorem roundHalfEven_sub_le (q : ℚ) : |(roundHalfEven q : ℚ) - q| ≤ 1/2 := by
  have hf : (⌊q⌋ : ℚ) ≤ q := Int.floor_le q
  have hf2 : q - 1 < (⌊q⌋ : ℚ) := Int.sub_one_lt_floor q
  unfold roundHalfEven
  by_cases h1 : q - ⌊q⌋ < 1/2
  · rw [if_pos h1, abs_sub_comm, abs_of_nonneg (by linarith)]; linarith
  · rw [if_neg h1]
    have h1m := le_of_not_lt h1
    by_cases h2 : 1/2 < q - ⌊q⌋
    · rw [if_pos h2, abs_of_nonneg (by push_cast; linarith)]
      push_cast; linarith
    · rw [if_neg h2]
      have hr : q - (⌊q⌋:ℚ) = 1/2 := le_antisymm (le_of_not_lt h2) h1m
      by_cases h3 : ⌊q⌋ % 2 = 0
      · rw [if_pos h3, abs_sub_comm, abs_of_nonneg (by linarith)]; linarith
      · rw [if_neg h3, abs_of_nonneg (by push_cast; linarith)]; push_cast; linarith

theorem roundHalfEven_le_of_le {q : ℚ} {n : ℤ} (h : q ≤ n) : roundHalfEven q ≤ n := by
  have hfle : ⌊q⌋ ≤ n := by simpa using Int.floor_le_floor h
  have hf : (⌊q⌋ : ℚ) ≤ q := Int.floor_le q
  unfold roundHalfEven
  by_cases h1 : q - ⌊q⌋ < 1/2
  · rw [if_pos h1]; exact hfle
  · rw [if_neg h1]
    have hlt : (⌊q⌋:ℚ) < q := by linarith [le_of_not_lt h1]
    have hstrict : ⌊q⌋ < n := by
      have hq : (⌊q⌋:ℚ) < (n:ℚ) := lt_of_lt_of_le hlt h
      exact_mod_cast hq
    by_cases h2 : 1/2 < q - ⌊q⌋
    · rw [if_pos h2]; omega
    · rw [if_neg h2]
      by_cases h3 : ⌊q⌋ % 2 = 0
      · rw [if_pos h3]; exact hfle
      · rw [if_neg h3]; omega

theorem le_roundHalfEven_of_le {q : ℚ} {n : ℤ} (h : (n : ℚ) ≤ q) : n ≤ roundHalfEven q := by
  have hfle : n ≤ ⌊q⌋ := Int.le_floor.mpr h
  unfold roundHalfEven
  by_cases h1 : q - ⌊q⌋ < 1/2
  · rw [if_pos h1]; exact hfle
  · rw [if_neg h1]
    by_cases h2 : 1/2 < q - ⌊q⌋
    · rw [if_pos h2]; omega
    · rw [if_neg h2]
      by_cases h3 : ⌊q⌋ % 2 = 0
      · rw [if_pos h3]; exact hfle
      · rw [if_neg h3]; omega

theorem round2_sub_le (q : ℚ) : |round2 q - q| ≤ 1/200 := by
  unfold round2
  have h := roundHalfEven_sub_le (q * 100)
  rw [show (roundHalfEven (q * 100) : ℚ) / 100 - q = ((roundHalfEven (q * 100) : ℚ) - q * 100) / 100 by ring,
    abs_div]
  rw [abs_of_nonneg (by norm_num : (0:ℚ) ≤ 100)]
  linarith

theorem round2_le_add (x c : ℚ) (h : x ≤ c) : round2 x ≤ c + 1/200 := by
  have h2 := round2_sub_le x
  rw [abs_le] at h2
  linarith [h2.2]

/-- The map `round2` sends `[n/100, m/100]` into itself for integer bounds `n ≤ m`. -/
theorem round2_mem_of_mem {x : ℚ} {n m : ℤ}
    (hl : (n : ℚ) / 100 ≤ x) (hu : x ≤ (m : ℚ) / 100) :
    (n : ℚ) / 100 ≤ round2 x ∧ round2 x ≤ (m : ℚ) / 100 := by
  unfold round2
  constructor
  · have hn : (n : ℚ) ≤ x * 100 := by linarith
    have := le_roundHalfEven_of_le hn
    have hc : (n : ℚ) ≤ (roundHalfEven (x * 100) : ℚ) := by exact_mod_cast this
    linarith
  · have hm : x * 100 ≤ (m : ℚ) := by linarith
    have := roundHalfEven_le_of_le hm
    have hc : (roundHalfEven (x * 100) : ℚ) ≤ (m : ℚ) := by exact_mod_cast this
    linarith

/-! ### Production model (`prediction_service.predict_production`) -/

/-- Solar context resolved from the system configuration
(`_resolve_solar_context` output fields used by `predict_production`). -/
structure SolarContext where
  capacityKw : ℚ
  panelEfficiency : ℚ
  arrayAreaM2 : ℚ
  deriving Repr, DecidableEq

/-- Embedding of `_get_hour_efficiency_factor`: step curve of hour-of-day. -/
def get_hour_efficiency_factor (hour : ℤ) : ℚ :=
  if 12 ≤ hour ∧ hour ≤ 14 then 1
  else if 11 ≤ hour ∧ hour ≤ 15 then 95/100
  else if 10 ≤ hour ∧ hour ≤ 16 then 85/100
  else if 8 ≤ hour ∧ hour ≤ 17 then 70/100
  else if 7 ≤ hour ∧ hour ≤ 18 then 50/100
  else if 6 ≤ hour ∧ hour ≤ 19 then 30/100
  else 0

/-- Embedding of `predict_production`: irradiance–area–efficiency product, temperature and
cloud derating, hour curve, capacity cap, night zeroing, rounding. -/
def predict_production (solar_radiation temperature cloud_cover : ℚ)
    (hour : ℤ) (context : SolarContext) : ℚ :=
  let production := solar_radiation * context.arrayAreaM2 * context.panelEfficiency / 1000
  let production := production * (1 - (temperature - 25) * (4/1000))
  let production := production * (1 - (cloud_cover / 100) * (1/2))
  let production := production * get_hour_efficiency_factor hour
  let production := min production context.capacityKw
  let production := if hour < 6 ∨ 20 < hour then 0 else production
  round2 (max 0 production)

/-- Claim C7: outside daylight hours (h < 6 or h > 20) the predicted
production is exactly 0, for every radiation, temperature, cloud-cover and
configuration input. -/
theorem predict_production_night_zero
    (solar_radiation temperature cloud_cover : ℚ) (hour : ℤ)
    (context : SolarContext) (h : hour < 6 ∨ 20 < hour) :
    predict_production solar_radiation temperature cloud_cover hour context = 0 := by
  simp only [predict_production]
  rw [if_pos h]
  norm_num [round2, roundHalfEven]

/-- Witness for C7 at hour 21. -/
theorem predict_production_night_zero_witness :
    ((21:ℤ) < 6 ∨ 20 < (21:ℤ)) ∧
      predict_production 800 30 10 21 ⟨5, 1/5, 20⟩ = 0 :=
  ⟨Or.inr (by norm_num),
    predict_production_night_zero 800 30 10 21 ⟨5, 1/5, 20⟩ (Or.inr (by norm_num))⟩

/-- Claim C2 counterexample: with capacity 0.006 kW the rounded production can
exceed the capacity: at full sun the capped value 0.006 rounds up to 0.01. -/
theorem predict_production_cap_counterexample :
    (0:ℚ) < 3/500 ∧ (6:ℤ) ≤ 13 ∧ (13:ℤ) ≤ 20 ∧
      predict_production 1000 25 0 13 ⟨3/500, 1, 1⟩ = 1/100 ∧
      ¬ predict_production 1000 25 0 13 ⟨3/500, 1, 1⟩ ≤ 3/500 := by
  have hval : predict_production 1000 25 0 13 ⟨3/500, 1, 1⟩ = 1/100 := by
    simp only [predict_production, get_hour_efficiency_factor]
    norm_num [round2, roundHalfEven, min_def, max_def]
  exact ⟨by norm_num, by norm_num, by norm_num, hval, by rw [hval]; norm_num⟩

/-- Claim C2 amended: for capacity C > 0 and daylight hour h ∈ [6,20], the
rounded production is at most C + 0.005 (the cap holds before rounding, and
rounding can add at most half a hundredth). -/
theorem predict_production_le_capacity_plus_half_cent
    (solar_radiation temperature cloud_cover : ℚ) (hour : ℤ)
    (context : SolarContext) (hC : 0 < context.capacityKw)
    (h6 : 6 ≤ hour) (h20 : hour ≤ 20) :
    predict_production solar_radiation temperature cloud_cover hour context ≤
      context.capacityKw + 1/200 := by
  simp only [predict_production]
  rw [if_neg (by omega)]
  exact round2_le_add _ _ (max_le hC.le (min_le_right _ _))

/-- Witness for C2-amended at capacity 5 kW, hour 13, full sun. -/
theorem predict_production_le_capacity_witness :
    (0:ℚ) < 5 ∧ (6:ℤ) ≤ 13 ∧ (13:ℤ) ≤ 20 ∧
      predict_production 1000 25 0 13 ⟨5, 1/5, 20⟩ ≤ 5 + 1/200 :=
  ⟨by norm_num, by norm_num, by norm_num,
    predict_production_le_capacity_plus_half_cent 1000 25 0 13 ⟨5, 1/5, 20⟩
      (by norm_num) (by norm_num) (by norm_num)⟩

/-! ### Blackout schedules and windows (`_flatten_blackout_windows`) -/

/-- One blackout interval of a schedule; timestamps are integer minutes
(only order and differences of parsed datetimes are used by the code). -/
structure Interval where
  start : ℤ
  stop : ℤ
  durationMinutes : Option ℤ
  deriving Repr, DecidableEq

/-- A blackout schedule: a list of intervals plus optional free-text notes. -/
structure Schedule where
  intervals : List Interval
  notes : Option String
  deriving Repr, DecidableEq

/-- A flattened blackout window: parsed interval bounds plus provenance. -/
structure Window where
  start : ℤ
  stop : ℤ
  scheduleNotes : Option String
  intervalIndex : ℕ
  interval : Interval
  deriving Repr, DecidableEq

def insertByStart (w : Window) : List Window → List Window
  | [] => [w]
  | x :: xs => if w.start ≤ x.start then w :: x :: xs else x :: insertByStart w xs

/-- Stable sort by window start (the Python `sorted` call with the start key). -/
def sortByStart : List Window → List Window
  | [] => []
  | x :: xs => insertByStart x (sortByStart xs)

/-- The windows contributed by one schedule: its intervals with their index,
keeping only those with `start < end`. -/
def scheduleWindows (s : Schedule) : List Window :=
  s.intervals.enum.filterMap fun p =>
    if p.2.start < p.2.stop then some ⟨p.2.start, p.2.stop, s.notes, p.1, p.2⟩
    else none

/-- Embedding of `_flatten_blackout_windows`: the valid intervals of all
schedules, sorted by
start. -/
def flatten_blackout_windows (blackouts : List Schedule) : List Window :=
  sortByStart (blackouts.map scheduleWindows).flatten

/-- Embedding of `_resolve_blackout_intensity`: "severo" iff the duration reaches 180
minutes (taken from the interval when present, else from the bounds). -/
def resolve_blackout_intensity (w : Window) : String :=
  match w.interval.durationMinutes with
  | some d => if 180 ≤ d then "severo" else "moderado"
  | none => if 3 ≤ ((w.stop - w.start : ℤ) : ℚ) / 60 then "severo" else "moderado"

/-- Embedding of `_describe_blackout_window`; the strftime-formatted time range of the
fallback label is abstracted away (date rendering is outside the model). -/
def describe_blackout_window (w : Window) : String :=
  match w.scheduleNotes with
  | some s => if s.trim ≠ "" then s.trim else "Apagón programado"
  | none => "Apagón programado"

/-! ### Hourly predictions and the blackout adjuster -/

/-- Blackout impact metadata attached to an adjusted prediction. -/
structure BlackoutImpact where
  intervalStart : ℤ
  intervalEnd : ℤ
  loadFactor : ℚ
  productionFactor : ℚ
  intensity : String
  note : String
  deriving Repr, DecidableEq

/-- One hourly prediction record. -/
structure Prediction where
  timestamp : ℤ
  hour : ℤ
  expectedProduction : ℚ
  expectedConsumption : ℚ
  confidence : ℚ
  blackoutImpact : Option BlackoutImpact
  deriving Repr, DecidableEq

def BLACKOUT_LOAD_FACTOR : ℚ := 6/10

def BLACKOUT_PRODUCTION_FACTOR : ℚ := 85/100

def BLACKOUT_CONFIDENCE_PENALTY : ℚ := 12

/-- Embedding of `apply_blackout_adjustments`: attenuate production/consumption and lower
confidence for predictions inside a blackout window; first matching window
wins; no-op on an empty schedule list or when no interval is valid. -/
def apply_blackout_adjustments (predictions : List Prediction)
    (blackouts : List Schedule) : List Prediction :=
  if blackouts = [] then predictions
  else
    let windows := flatten_blackout_windows blackouts
    if windows = [] then predictions
    else
      predictions.map fun prediction =>
        match windows.find? (fun w =>
            decide (w.start ≤ prediction.timestamp ∧ prediction.timestamp < w.stop)) with
        | none => prediction
        | some w =>
          { prediction with
            expectedProduction :=
              max 0 (round2 (prediction.expectedProduction * BLACKOUT_PRODUCTION_FACTOR)),
            expectedConsumption :=
              max 0 (round2 (prediction.expectedConsumption * BLACKOUT_LOAD_FACTOR)),
            confidence := max 40 (prediction.confidence - BLACKOUT_CONFIDENCE_PENALTY),
            blackoutImpact := some
              ⟨w.interval.start, w.interval.stop, BLACKOUT_LOAD_FACTOR,
                BLACKOUT_PRODUCTION_FACTOR, resolve_blackout_intensity w,
                describe_blackout_window w⟩ }

/-- Claim C4: applying the blackout adjuster with an empty schedule list
returns the prediction list unchanged (structural equality). -/
theorem apply_blackout_adjustments_empty (predictions : List Prediction) :
    apply_blackout_adjustments predictions [] = predictions := by
  simp [apply_blackout_adjustments]

/-- Claim C5: a prediction whose timestamp lies inside some flattened blackout
window gets confidence `max 40 (original − 12)` after adjustment. -/
theorem apply_blackout_adjustments_confidence
    (predictions : List Prediction) (blackouts : List Schedule)
    (i : ℕ) (hi : i < predictions.length)
    (hw : ∃ w ∈ flatten_blackout_windows blackouts,
      w.start ≤ (predictions.get ⟨i, hi⟩).timestamp ∧
        (predictions.get ⟨i, hi⟩).timestamp < w.stop) :
    ∃ hj : i < (apply_blackout_adjustments predictions blackouts).length,
      ((apply_blackout_adjustments predictions blackouts).get ⟨i, hj⟩).confidence =
        max 40 ((predictions.get ⟨i, hi⟩).confidence - BLACKOUT_CONFIDENCE_PENALTY) := by
  obtain ⟨w, hwmem, hw1, hw2⟩ := hw
  have hbne : blackouts ≠ [] := by
    intro hb
    rw [hb] at hwmem
    simp [flatten_blackout_windows, sortByStart] at hwmem
  have hwne : flatten_blackout_windows blackouts ≠ [] := by
    intro hb
    rw [hb] at hwmem
    simp at hwmem
  have hfind : ((flatten_blackout_windows blackouts).find? (fun v =>
      decide (v.start ≤ (predictions.get ⟨i, hi⟩).timestamp ∧
        (predictions.get ⟨i, hi⟩).timestamp < v.stop))).isSome := by
    rw [List.find?_isSome]
    exact ⟨w, hwmem, by simp only [decide_eq_true_eq]; exact ⟨hw1, hw2⟩⟩
  obtain ⟨w2, hw2eq⟩ := Option.isSome_iff_exists.mp hfind
  unfold apply_blackout_adjustments
  rw [if_neg hbne]
  simp only []
  rw [if_neg hwne]
  refine ⟨by simpa using hi, ?_⟩
  rw [List.get_map]
  simp only [hw2eq]

/-- Example prediction used by the concrete witnesses. -/
def exPrediction : Prediction := ⟨0, 0, 10, 5, 70, none⟩

/-- Example schedule with one valid interval covering timestamp 0. -/
def exSchedule : Schedule := ⟨[⟨-10, 10, none⟩], none⟩

/-- Witness for C5: a single prediction at timestamp 0 inside the window
[−10, 10). -/
theorem apply_blackout_adjustments_confidence_witness :
    ∃ hj : 0 < (apply_blackout_adjustments [exPrediction] [exSchedule]).length,
      ((apply_blackout_adjustments [exPrediction] [exSchedule]).get ⟨0, hj⟩).confidence =
        max 40 (([exPrediction].get ⟨0, Nat.zero_lt_one⟩).confidence -
          BLACKOUT_CONFIDENCE_PENALTY) :=
  apply_blackout_adjustments_confidence [exPrediction] [exSchedule] 0 Nat.zero_lt_one
    ⟨⟨-10, 10, none, 0, ⟨-10, 10, none⟩⟩,
      by decide,
      by simp [exPrediction],
      by simp [exPrediction]⟩

/-! ### Battery timeline simulator (`build_projected_solar_timeline`) -/

/-- One point of the projected timeline. -/
structure TimelinePoint where
  timestamp : ℤ
  production : ℚ
  consumption : ℚ
  batteryLevel : ℚ
  gridExport : ℚ
  gridImport : ℚ
  efficiency : ℚ
  batteryDelta : ℚ
  deriving Repr, DecidableEq

/-- The `any(window["start"] <= timestamp < window["end"] ...)` test. -/
def blackout_active (windows : List Window) (t : ℤ) : Bool :=
  windows.any fun w => decide (w.start ≤ t ∧ t < w.stop)

/-- The stored-energy / battery-delta / grid-export / grid-import update of
one simulated hour (the two branches on the sign of `net`). -/
structure StepUpdate where
  stored : ℚ
  batteryDelta : ℚ
  gridExport : ℚ
  gridImport : ℚ
  deriving Repr, DecidableEq

def timelineUpdate (battery_capacity_kwh stored_energy net : ℚ)
    (blackout : Bool) : StepUpdate :=
  if 0 ≤ net then
    let energy_to_battery := min net (battery_capacity_kwh - stored_energy)
    ⟨stored_energy + energy_to_battery, energy_to_battery, net - energy_to_battery, 0⟩
  else
    let demand := |net|
    let energy_from_battery := min stored_energy demand
    ⟨stored_energy - energy_from_battery, -energy_from_battery, 0,
      if blackout then 0 else demand - energy_from_battery⟩

/-- The body of the per-prediction loop: returns the new stored energy and
the emitted timeline point. -/
def timelineStep (battery_capacity_kwh : ℚ) (windows : List Window)
    (stored_energy : ℚ) (prediction : Prediction) : ℚ × TimelinePoint :=
  let production := max 0 prediction.expectedProduction
  let consumption := max 0 prediction.expectedConsumption
  let net := production - consumption
  let u := timelineUpdate battery_capacity_kwh stored_energy net
    (blackout_active windows prediction.timestamp)
  let battery_level := max 0 (min 100 (u.stored / battery_capacity_kwh * 100))
  let efficiency := max 75 (min 96 (82 + (prediction.confidence - 70) * (1/4)))
  (u.stored,
    ⟨prediction.timestamp, round2 production, round2 consumption,
      round2 battery_level, round2 u.gridExport, round2 u.gridImport,
      round2 efficiency, round2 u.batteryDelta⟩)

def timelineGo (battery_capacity_kwh : ℚ) (windows : List Window) :
    ℚ → List Prediction → List TimelinePoint
  | _, [] => []
  | stored_energy, p :: rest =>
    let s := timelineStep battery_capacity_kwh windows stored_energy p
    s.2 :: timelineGo battery_capacity_kwh windows s.1 rest

/-- Embedding of `build_projected_solar_timeline`: sequential fold of the first 24
predictions carrying the stored energy. -/
def build_projected_solar_timeline (predictions : List Prediction)
    (battery_capacity_kwh : ℚ) (initial_battery_level : ℚ)
    (blackouts : List Schedule) : List TimelinePoint :=
  timelineGo battery_capacity_kwh (flatten_blackout_windows blackouts)
    (initial_battery_level / 100 * battery_capacity_kwh) (predictions.take 24)

theorem round2_clamp01 (x : ℚ) :
    0 ≤ round2 (max 0 (min 100 x)) ∧ round2 (max 0 (min 100 x)) ≤ 100 := by
  have h1 : ((0:ℤ):ℚ)/100 ≤ max 0 (min 100 x) := by
    simpa using le_max_left 0 (min 100 x)
  have h2 : max 0 (min 100 x) ≤ ((10000:ℤ):ℚ)/100 := by
    have h : max 0 (min 100 x) ≤ 100 := max_le (by norm_num) (min_le_left _ _)
    push_cast
    linarith
  have h := round2_mem_of_mem h1 h2
  constructor
  · have := h.1; push_cast at this; linarith
  · have := h.2; push_cast at this; linarith

theorem timelineStep_batteryLevel (c : ℚ) (ws : List Window) (s : ℚ)
    (p : Prediction) :
    0 ≤ (timelineStep c ws s p).2.batteryLevel ∧
      (timelineStep c ws s p).2.batteryLevel ≤ 100 := by
  simp only [timelineStep]
  exact round2_clamp01 _

theorem timelineGo_batteryLevel (c : ℚ) (ws : List Window) :
    ∀ (preds : List Prediction) (stored : ℚ),
      ∀ tp ∈ timelineGo c ws stored preds,
        0 ≤ tp.batteryLevel ∧ tp.batteryLevel ≤ 100 := by
  intro preds
  induction preds with
  | nil => intro stored tp htp; simp [timelineGo] at htp
  | cons p rest ih =>
    intro stored tp htp
    simp only [timelineGo] at htp
    rcases List.mem_cons.mp htp with h | h
    · rw [h]; exact timelineStep_batteryLevel c ws stored p
    · exact ih _ tp h

/-- Claim C3: every battery level of the timeline lies in [0, 100], for every
prediction list, initial level in [0, 100] and positive capacity. -/
theorem build_timeline_batteryLevel_in_range
    (predictions : List Prediction)
    (battery_capacity_kwh initial_battery_level : ℚ) (blackouts : List Schedule)
    (h0 : 0 ≤ initial_battery_level) (h100 : initial_battery_level ≤ 100)
    (hcap : 0 < battery_capacity_kwh) :
    ∀ tp ∈ build_projected_solar_timeline predictions battery_capacity_kwh
        initial_battery_level blackouts,
      0 ≤ tp.batteryLevel ∧ tp.batteryLevel ≤ 100 := by
  intro tp htp
  exact timelineGo_batteryLevel _ _ _ _ tp htp

/-- The timeline point produced from `exPrediction` with capacity 10 and
initial level 50 and no blackouts. -/
def exTimelinePoint : TimelinePoint := ⟨0, 10, 5, 100, 0, 0, 82, 5⟩

theorem build_exPrediction_eval :
    build_projected_solar_timeline [exPrediction] 10 50 [] = [exTimelinePoint] := by
  norm_num [build_projected_solar_timeline, timelineGo, timelineStep,
    timelineUpdate, blackout_active, flatten_blackout_windows, sortByStart,
    exPrediction, exTimelinePoint, round2, roundHalfEven]

/-- Witness for C3 at a one-hour timeline. -/
theorem build_timeline_batteryLevel_witness :
    0 ≤ exTimelinePoint.batteryLevel ∧ exTimelinePoint.batteryLevel ≤ 100 :=
  build_timeline_batteryLevel_in_range [exPrediction] 10 50 []
    (by norm_num) (by norm_num) (by norm_num) exTimelinePoint
    (by rw [build_exPrediction_eval]; exact List.mem_singleton.mpr rfl)

theorem round5_bound {a b c d e : ℚ} (h : a + b - c = d - e) :
    |round2 a + round2 b - round2 c - (round2 d - round2 e)| ≤ 1/40 := by
  have ha := round2_sub_le a
  have hb := round2_sub_le b
  have hc := round2_sub_le c
  have hd := round2_sub_le d
  have he := round2_sub_le e
  rw [abs_le] at ha hb hc hd he ⊢
  constructor <;>
    linarith [ha.1, ha.2, hb.1, hb.2, hc.1, hc.2, hd.1, hd.2, he.1, he.2]

theorem timelineUpdate_conservation (c s net : ℚ) :
    (timelineUpdate c s net false).batteryDelta +
      (timelineUpdate c s net false).gridExport -
      (timelineUpdate c s net false).gridImport = net := by
  unfold timelineUpdate
  by_cases h : 0 ≤ net
  · rw [if_pos h]; ring
  · rw [if_neg h]
    simp only [Bool.false_eq_true, if_false]
    rw [abs_of_neg (lt_of_not_le h)]
    ring

theorem timelineStep_conservation (c : ℚ) (ws : List Window) (s : ℚ)
    (p : Prediction) (hb : blackout_active ws p.timestamp = false) :
    |(timelineStep c ws s p).2.batteryDelta + (timelineStep c ws s p).2.gridExport -
      (timelineStep c ws s p).2.gridImport -
      ((timelineStep c ws s p).2.production - (timelineStep c ws s p).2.consumption)| ≤
      1/40 := by
  simp only [timelineStep, hb]
  exact round5_bound (timelineUpdate_conservation c s
    (max 0 p.expectedProduction - max 0 p.expectedConsumption))

theorem timelineGo_conservation (c : ℚ) (ws : List Window) :
    ∀ (preds : List Prediction) (stored : ℚ),
      ∀ tp ∈ timelineGo c ws stored preds,
        blackout_active ws tp.timestamp = false →
        |tp.batteryDelta + tp.gridExport - tp.gridImport -
          (tp.production - tp.consumption)| ≤ 1/40 := by
  intro preds
  induction preds with
  | nil => intro stored tp htp; simp [timelineGo] at htp
  | cons p rest ih =>
    intro stored tp htp hnb
    simp only [timelineGo] at htp
    rcases List.mem_cons.mp htp with h | h
    · subst h
      apply timelineStep_conservation
      simpa [timelineStep] using hnb
    · exact ih _ tp h hnb

/-- Claim C1 amended: for every timeline point whose hour is not inside an
active blackout window, `batteryDelta + gridExport − gridImport` equals
`production − consumption` within rounding tolerance (at most 0.025 off,
five values each rounded to a half-hundredth). -/
theorem build_timeline_energy_conservation
    (predictions : List Prediction)
    (battery_capacity_kwh initial_battery_level : ℚ) (blackouts : List Schedule)
    (tp : TimelinePoint)
    (htp : tp ∈ build_projected_solar_timeline predictions battery_capacity_kwh
      initial_battery_level blackouts)
    (hnb : blackout_active (flatten_blackout_windows blackouts) tp.timestamp = false) :
    |tp.batteryDelta + tp.gridExport - tp.gridImport -
      (tp.production - tp.consumption)| ≤ 1/40 := by
  exact timelineGo_conservation _ _ _ _ tp htp hnb

/-- Witness for C1-amended on a one-hour timeline with no blackout. -/
theorem build_timeline_energy_conservation_witness :
    |exTimelinePoint.batteryDelta + exTimelinePoint.gridExport -
      exTimelinePoint.gridImport -
      (exTimelinePoint.production - exTimelinePoint.consumption)| ≤ 1/40 :=
  build_timeline_energy_conservation [exPrediction] 10 50 [] exTimelinePoint
    (by rw [build_exPrediction_eval]; exact List.mem_singleton.mpr rfl)
    (by norm_num [blackout_active, flatten_blackout_windows, sortByStart])

/-- Deficit hour during a blackout: production 0, consumption 10. -/
def exBlackoutPrediction : Prediction := ⟨0, 0, 0, 10, 70, none⟩

/-- The point that `build_projected_solar_timeline` emits for
`exBlackoutPrediction` with an empty battery during the blackout. -/
def exOutagePoint : TimelinePoint := ⟨0, 0, 10, 0, 0, 0, 82, 0⟩

/-- Claim C1 counterexample: during a blackout hour with an empty battery the
conservation equation fails by the whole unmet deficit: the single timeline
point has `batteryDelta + gridExport − gridImport = 0` while
`production − consumption = −10`. -/
theorem build_timeline_energy_conservation_counterexample :
    build_projected_solar_timeline [exBlackoutPrediction] 10 0 [exSchedule] =
      [exOutagePoint] ∧
    blackout_active (flatten_blackout_windows [exSchedule])
      exOutagePoint.timestamp = true ∧
    exOutagePoint.batteryDelta + exOutagePoint.gridExport -
      exOutagePoint.gridImport -
      (exOutagePoint.production - exOutagePoint.consumption) = 10 := by
  refine ⟨?_, ?_, by norm_num [exOutagePoint]⟩
  · norm_num [build_projected_solar_timeline, timelineGo, timelineStep,
      timelineUpdate, blackout_active, flatten_blackout_windows,
      scheduleWindows, sortByStart, insertByStart, exBlackoutPrediction,
      exSchedule, exOutagePoint, round2, roundHalfEven]
  · norm_num [blackout_active, flatten_blackout_windows, scheduleWindows,
      sortByStart, insertByStart, exSchedule, exOutagePoint]

/-! ### Discharge-time estimator (`calculate_battery_discharge_time`) -/

/-- The input-validation failures of the estimator (`ValueError` cases that
do not depend on external collaborators). -/
inductive DischargeError where
  | invalidStartHour
  | invalidCapacity
  deriving Repr, DecidableEq

structure DischargeResult where
  minutesToEmpty : Option ℕ
  startHour : ℤ
  batteryCapacityKwh : ℚ
  deriving Repr, DecidableEq

/-- The hour-by-hour discharge loop: add the balance, clamp to
[0, capacity], stop with `(i+1) × 60` minutes the first time the level
reaches 0. -/
def simulate_discharge (battery_capacity_kwh : ℚ) :
    ℚ → ℕ → List (ℚ × ℚ) → Option ℕ
  | _, _, [] => none
  | battery_level_kwh, i, (production_kw, consumption_kw) :: rest =>
    let balance_kwh := production_kw - consumption_kw
    let level := battery_level_kwh + balance_kwh
    let level := if battery_capacity_kwh < level then battery_capacity_kwh
      else if level < 0 then 0 else level
    if level ≤ 0 then some ((i + 1) * 60)
    else simulate_discharge battery_capacity_kwh level (i + 1) rest

/-- Embedding of `calculate_battery_discharge_time` with the external point-prediction
collaborators supplied as explicit per-hour kW lists (today from the start
hour, then the full next day); the battery starts full. -/
def calculate_battery_discharge_time (start_hour : ℤ) (battery_capacity_kwh : ℚ)
    (production_today production_tomorrow consumption_today consumption_tomorrow :
      List ℚ) : Except DischargeError DischargeResult :=
  if ¬ (0 ≤ start_hour ∧ start_hour ≤ 23) then .error .invalidStartHour
  else if battery_capacity_kwh ≤ 0 then .error .invalidCapacity
  else
    let all_production := production_today ++ production_tomorrow
    let all_consumption := consumption_today ++ consumption_tomorrow
    let min_len := min all_production.length all_consumption.length
    let pairs := (all_production.take min_len).zip (all_consumption.take min_len)
    .ok ⟨simulate_discharge battery_capacity_kwh battery_capacity_kwh 0 pairs,
      start_hour, round2 battery_capacity_kwh⟩

/-- Claim C6: capacity 100 kWh, constant consumption 10 kW, zero production,
start hour 0: the battery is empty after exactly 600 minutes. -/
theorem calculate_battery_discharge_time_const_load :
    calculate_battery_discharge_time 0 100 (List.replicate 24 0)
      (List.replicate 24 0) (List.replicate 24 10) (List.replicate 24 10) =
      .ok ⟨some 600, 0, 100⟩ := by
  have hsim : simulate_discharge 100 100 0
      (List.replicate 48 ((0:ℚ), (10:ℚ))) = some 600 := by
    norm_num [simulate_discharge, List.replicate]
  have h100 : round2 100 = 100 := by norm_num [round2, roundHalfEven]
  simp only [calculate_battery_discharge_time]
  rw [if_neg (by norm_num), if_neg (by norm_num)]
  simp only [List.length_append, List.length_replicate, h100]
  norm_num
  exact hsim

/-- Claim C9: the start-hour validation; outside 0..23 the estimator fails
with the start-hour input error whatever the collaborators return (the
check precedes every use of them); inside 0..23 that error never occurs. -/
theorem calculate_battery_discharge_time_start_hour_validation
    (start_hour : ℤ) (battery_capacity_kwh : ℚ)
    (production_today production_tomorrow consumption_today consumption_tomorrow :
      List ℚ) :
    ((start_hour < 0 ∨ 23 < start_hour) →
      calculate_battery_discharge_time start_hour battery_capacity_kwh
        production_today production_tomorrow consumption_today consumption_tomorrow =
        .error .invalidStartHour) ∧
    (0 ≤ start_hour → start_hour ≤ 23 →
      calculate_battery_discharge_time start_hour battery_capacity_kwh
        production_today production_tomorrow consumption_today consumption_tomorrow ≠
        .error .invalidStartHour) := by
  constructor
  · intro h
    unfold calculate_battery_discharge_time
    rw [if_pos (by omega)]
  · intro h1 h2
    unfold calculate_battery_discharge_time
    rw [if_neg (by omega)]
    by_cases hc : battery_capacity_kwh ≤ 0
    · rw [if_pos hc]; simp
    · rw [if_neg hc]; simp

/-- Witness for C9 at start hours 24 (rejected) and 5 (accepted). -/
theorem calculate_battery_discharge_time_start_hour_witness :
    calculate_battery_discharge_time 24 100 [] [] [] [] =
      .error .invalidStartHour ∧
    calculate_battery_discharge_time 5 100 [] [] [] [] ≠
      .error .invalidStartHour :=
  ⟨(calculate_battery_discharge_time_start_hour_validation 24 100 [] [] [] []).1
      (by norm_num),
    (calculate_battery_discharge_time_start_hour_validation 5 100 [] [] [] []).2
      (by norm_num) (by norm_num)⟩

/-! ### Energy-flow calculator (`analytics.calculate_energy_flow`) -/

structure EnergyFlow where
  solarToBattery : ℚ
  solarToLoad : ℚ
  solarToGrid : ℚ
  batteryToLoad : ℚ
  gridToLoad : ℚ
  deriving Repr, DecidableEq

/-- The five flow values as computed before the final rounding. -/
def energy_flow_raw (production consumption : ℚ) (battery_charging : Bool)
    (battery_power_flow : ℚ) : EnergyFlow :=
  let surplus := production - consumption
  if 0 < surplus then
    let solar_to_load := consumption
    if battery_charging = true ∧ 0 < battery_power_flow then
      let solar_to_battery := min surplus |battery_power_flow|
      ⟨solar_to_battery, solar_to_load, surplus - solar_to_battery, 0, 0⟩
    else
      ⟨0, solar_to_load, surplus, 0, 0⟩
  else
    let solar_to_load := production
    let deficit := |surplus|
    if battery_charging = false ∧ battery_power_flow < 0 then
      let battery_to_load := min deficit |battery_power_flow|
      ⟨0, solar_to_load, 0, battery_to_load, deficit - battery_to_load⟩
    else
      ⟨0, solar_to_load, 0, 0, deficit⟩

/-- Embedding of `calculate_energy_flow`: the raw flows, each rounded to 2 decimals. -/
def calculate_energy_flow (production consumption : ℚ) (battery_charging : Bool)
    (battery_power_flow : ℚ) : EnergyFlow :=
  let r := energy_flow_raw production consumption battery_charging battery_power_flow
  ⟨round2 r.solarToBattery, round2 r.solarToLoad, round2 r.solarToGrid,
    round2 r.batteryToLoad, round2 r.gridToLoad⟩

/-- Claim C8: the two documented examples of `calculate_energy_flow`. -/
theorem calculate_energy_flow_examples :
    calculate_energy_flow 10 6 true 3 = ⟨3, 6, 1, 0, 0⟩ ∧
    calculate_energy_flow 5 8 false (-2) = ⟨0, 5, 0, 2, 1⟩ := by
  constructor <;>
    norm_num [calculate_energy_flow, energy_flow_raw, round2, roundHalfEven]

/-- Claim C10: before rounding, the flows conserve energy on both sides:
solar flows sum to the production and load flows sum to the consumption. -/
theorem energy_flow_raw_conservation
    (production consumption : ℚ) (battery_charging : Bool)
    (battery_power_flow : ℚ) (hp : 0 ≤ production) (hc : 0 ≤ consumption) :
    (energy_flow_raw production consumption battery_charging
        battery_power_flow).solarToLoad +
      (energy_flow_raw production consumption battery_charging
        battery_power_flow).solarToBattery +
      (energy_flow_raw production consumption battery_charging
        battery_power_flow).solarToGrid = production ∧
    (energy_flow_raw production consumption battery_charging
        battery_power_flow).solarToLoad +
      (energy_flow_raw production consumption battery_charging
        battery_power_flow).batteryToLoad +
      (energy_flow_raw production consumption battery_charging
        battery_power_flow).gridToLoad = consumption := by
  unfold energy_flow_raw
  by_cases h1 : 0 < production - consumption
  · rw [if_pos h1]
    by_cases h2 : battery_charging = true ∧ 0 < battery_power_flow
    · rw [if_pos h2]
      exact ⟨by ring, by ring⟩
    · rw [if_neg h2]
      exact ⟨by ring, by ring⟩
  · rw [if_neg h1]
    have habs : |production - consumption| = consumption - production := by
      rw [abs_of_nonpos (le_of_not_lt h1)]; ring
    by_cases h2 : battery_charging = false ∧ battery_power_flow < 0
    · rw [if_pos h2]
      constructor
      · simp only []; ring
      · simp only [habs]; ring
    · rw [if_neg h2]
      constructor
      · simp only []; ring
      · simp only [habs]; ring

/-- Witness for C10 at production 10, consumption 6, charging, flow 3. -/
theorem energy_flow_raw_conservation_witness :
    (energy_flow_raw 10 6 true 3).solarToLoad +
        (energy_flow_raw 10 6 true 3).solarToBattery +
        (energy_flow_raw 10 6 true 3).solarToGrid = 10 ∧
      (energy_flow_raw 10 6 true 3).solarToLoad +
        (energy_flow_raw 10 6 true 3).batteryToLoad +
        (energy_flow_raw 10 6 true 3).gridToLoad = 6 :=
  energy_flow_raw_conservation 10 6 true 3 (by norm_num) (by norm_num)

end SolarTwin
